import Mathlib

/-!
Verification of the gremlin risk-analysis pipeline.

This file shallowly embeds the core of the `gremlin` Python package
(domain inference, pattern selection, prompt building, stage artifacts,
response parsing, validation fallback and stage error tagging) as Lean
definitions, and proves or refutes the frozen specification claims
about them.

Python strings are modeled as Lean `String` / `List Char`; `str.lower`,
`str.upper` and `str.strip` are modeled character-wise over ASCII
(the inputs exercised by the claims are ASCII).  Python dicts holding
JSON data are modeled by the `JValue` inductive; fallible operations
return `Option` / `Except`.
-/

namespace Gremlin

/-! ## Character and string utilities (models of Python str primitives) -/

/-- Python `\s` / `str.strip` whitespace, ASCII portion:
space, tab, newline, carriage return, vertical tab, form feed. -/
def isWs (c : Char) : Bool :=
  c = ' ' || c = '\t' || c = '\n' || c = '\r' || c.toNat = 11 || c.toNat = 12

/-- ASCII uppercase test (`'A'..'Z'`), as used by `str.lower` modeling. -/
def isUpperA (c : Char) : Bool :=
  65 ≤ c.toNat && c.toNat ≤ 90

/-- ASCII lowercase test (`'a'..'z'`). -/
def isLowerA (c : Char) : Bool :=
  97 ≤ c.toNat && c.toNat ≤ 122

/-- Character-wise model of Python `str.lower` (ASCII). -/
def lowerChar (c : Char) : Char :=
  if isUpperA c then Char.ofNat (c.toNat + 32) else c

/-- Character-wise model of Python `str.upper` (ASCII). -/
def upperChar (c : Char) : Char :=
  if isLowerA c then Char.ofNat (c.toNat - 32) else c

/-- Model of `str.lower` on a character list. -/
def lowerL (l : List Char) : List Char := l.map lowerChar

/-- Model of `str.upper` on a character list. -/
def upperL (l : List Char) : List Char := l.map upperChar

/-- Boolean list-prefix test (used to model anchored literal matches). -/
def isPrefixL : List Char → List Char → Bool
  | [], _ => true
  | _ :: _, [] => false
  | a :: as, b :: bs => a = b && isPrefixL as bs

/-- Model of Python substring containment `needle in hay`
(the empty needle is contained in everything, as in Python). -/
def containsSub (needle : List Char) : List Char → Bool
  | [] => needle.isEmpty
  | c :: cs => isPrefixL needle (c :: cs) || containsSub needle cs

/-- Model of `str.lstrip()` (ASCII whitespace). -/
def stripL (l : List Char) : List Char := l.dropWhile isWs

/-- Model of `str.rstrip()` (ASCII whitespace). -/
def stripR (l : List Char) : List Char := (l.reverse.dropWhile isWs).reverse

/-- Model of `str.strip()` (ASCII whitespace). -/
def strip (l : List Char) : List Char := stripR (stripL l)

/-- Model of `str.split(sep)` for a single-character separator. -/
def splitOnChar (sep : Char) : List Char → List (List Char)
  | [] => [[]]
  | c :: cs =>
    if c = sep then [] :: splitOnChar sep cs
    else
      match splitOnChar sep cs with
      | [] => [[c]]
      | p :: ps => (c :: p) :: ps

/-! ## core/inference.py -/

/-- Embedding of `gremlin.core.inference.infer_domains`: lower-case the
scope, keep (in insertion order) every domain one of whose keywords is a
verbatim substring of the lowered scope. -/
def infer_domains (scope : String) (domain_keywords : List (String × List String)) :
    List String :=
  let scope_lower := lowerL scope.data
  (domain_keywords.filter
    (fun p => p.2.any (fun kw => containsSub kw.data scope_lower))).map Prod.fst

/-! ### Facts about the primitives -/

theorem isPrefixL_mem {n l : List Char} (h : isPrefixL n l = true) :
    ∀ c ∈ n, c ∈ l := by
  induction n generalizing l with
  | nil => intro c hc; cases hc
  | cons a as ih =>
    cases l with
    | nil => simp [isPrefixL] at h
    | cons b bs =>
      simp only [isPrefixL, Bool.and_eq_true, decide_eq_true_eq] at h
      obtain ⟨rfl, h2⟩ := h
      intro c hc
      rcases hc with _ | hc
      · exact List.mem_cons_self _ _
      · exact List.mem_cons_of_mem _ (ih h2 c (by assumption))

theorem containsSub_mem {n h : List Char} (hc : containsSub n h = true) :
    ∀ c ∈ n, c ∈ h := by
  induction h with
  | nil =>
    simp only [containsSub, List.isEmpty_iff] at hc
    subst hc; intro c hc; cases hc
  | cons b bs ih =>
    simp only [containsSub, Bool.or_eq_true] at hc
    rcases hc with hp | hr
    · exact isPrefixL_mem hp
    · intro c hcn; exact List.mem_cons_of_mem _ (ih hr c hcn)

theorem lowerChar_not_upper (c : Char) : isUpperA (lowerChar c) = false := by
  unfold lowerChar
  by_cases h : isUpperA c = true
  · simp only [h, if_true]
    unfold isUpperA at h ⊢
    simp only [Bool.and_eq_true, decide_eq_true_eq] at h
    have hval : (Char.ofNat (c.toNat + 32)).toNat = c.toNat + 32 := by
      have hv : (c.toNat + 32).isValidChar := by
        left; omega
      unfold Char.ofNat
      rw [dif_pos hv]
      simp [Char.ofNatAux, Char.toNat, UInt32.toNat]
    simp only [Bool.and_eq_false_iff, decide_eq_false_iff_not]
    omega
  · simp only [Bool.not_eq_true] at h
    simp [h]

theorem mem_lowerL_not_upper {c : Char} {l : List Char} (h : c ∈ lowerL l) :
    isUpperA c = false := by
  unfold lowerL at h
  obtain ⟨x, _, rfl⟩ := List.mem_map.mp h
  exact lowerChar_not_upper x

/-- C10: `infer_domains` matches a domain iff some keyword of that domain
is, verbatim (no case normalization of the keyword), a substring of the
lower-cased scope; and a keyword containing an uppercase (ASCII) letter
never matches any scope. -/
theorem infer_domains_substring_iff (scope : String)
    (dk : List (String × List String)) (d : String) :
    (d ∈ infer_domains scope dk ↔
      ∃ kws, (d, kws) ∈ dk ∧
        ∃ kw ∈ kws, containsSub kw.data (lowerL scope.data) = true) ∧
    (∀ kw : String, (∃ c ∈ kw.data, isUpperA c = true) →
      containsSub kw.data (lowerL scope.data) = false) := by
  constructor
  · unfold infer_domains
    simp only [List.mem_map, List.mem_filter]
    constructor
    · rintro ⟨⟨d', kws⟩, ⟨hmem, hany⟩, rfl⟩
      exact ⟨kws, hmem, by simpa using List.any_eq_true.mp hany⟩
    · rintro ⟨kws, hmem, kw, hkw, hsub⟩
      exact ⟨(d, kws), ⟨hmem, List.any_eq_true.mpr ⟨kw, hkw, by simpa using hsub⟩⟩, rfl⟩
  · rintro kw ⟨c, hc, hup⟩
    by_contra h
    simp only [Bool.not_eq_false] at h
    have := containsSub_mem h c hc
    have := mem_lowerL_not_upper this
    rw [hup] at this
    exact Bool.true_eq_false.mp this

/-- Witness for C10: concrete evaluation — the domain `payments` is matched
for scope `Checkout flow` via keyword `checkout`, while the
uppercase-containing keyword `Pay` matches no scope. -/
theorem infer_domains_substring_iff_witness :
    ("payments" ∈ infer_domains "Checkout flow" [("payments", ["checkout"])] ∧
      containsSub "Pay".data (lowerL "anything Pay related".data) = false) := by
  refine ⟨?_, ?_⟩
  · exact (infer_domains_substring_iff "Checkout flow" [("payments", ["checkout"])]
      "payments").1.mpr ⟨["checkout"], by decide, "checkout", by decide, by decide⟩
  · exact (infer_domains_substring_iff "anything Pay related" [] "x").2 "Pay"
      ⟨'P', by decide, by decide⟩

/-! ## JSON value model

Python dicts/lists holding JSON-representable data are modeled by
`JValue`.  `json.dumps` followed by `json.loads` is the identity on this
model (JSON serialization of dicts of strings/ints/bools/None/lists/dicts
is faithful), so a dict and its image after a JSON cycle are represented
by the same `JValue`. -/

inductive JValue where
  | null : JValue
  | bool : Bool → JValue
  | int : Int → JValue
  | str : String → JValue
  | arr : List JValue → JValue
  | obj : List (String × JValue) → JValue
deriving Repr

/-- Python `dict[key]` / `dict.get(key)`: first binding of the key. -/
def jget (l : List (String × JValue)) (k : String) : Option JValue :=
  match l with
  | [] => none
  | (k', v) :: rest => if k' = k then some v else jget rest k

/-- Python `dict.get(key, default)`. -/
def jgetD (l : List (String × JValue)) (k : String) (d : JValue) : JValue :=
  (jget l k).getD d

/-- Python `len` on a JSON list (every value this is applied to below is
constructed as an array, so the fallback branch is unreachable). -/
def jlen : JValue → Nat
  | .arr l => l.length
  | _ => 0

/-! ## core/patterns.py -/

/-- One entry of the catalog's `domain_specific` mapping:
`{"keywords": [...], "patterns": [...]}`.  The patterns are kept as raw
JSON values, as the Python code never inspects them. -/
structure DomainConfig where
  keywords : List String
  patterns : List JValue
deriving Repr

/-- The merged pattern catalog `{"universal": [...], "domain_specific": {...}}`
as produced by `load_all_patterns`.  Universal entries are kept as raw
JSON values (category dicts); the code only takes their count. -/
structure Catalog where
  universal : List JValue
  domain_specific : List (String × DomainConfig)
deriving Repr

/-- Association-list lookup, modeling Python `dict[key]` on the catalog. -/
def lookupDomain (l : List (String × DomainConfig)) (k : String) :
    Option DomainConfig :=
  match l with
  | [] => none
  | (k', v) :: rest => if k' = k then some v else lookupDomain rest k

/-- Embedding of `gremlin.core.patterns.get_domain_keywords`. -/
def get_domain_keywords (patterns : Catalog) : List (String × List String) :=
  patterns.domain_specific.map (fun p => (p.1, p.2.keywords))

/-- Embedding of `gremlin.core.patterns.select_patterns`: universal
patterns are always included under the key `"universal"`; for each matched
domain present in the catalog, its pattern list is stored under the key
`"domain"` (the function ignores `scope`). -/
def select_patterns (_scope : String) (all_patterns : Catalog)
    (matched_domains : List String) : JValue :=
  .obj [("universal", .arr all_patterns.universal),
        ("domain", .obj (matched_domains.filterMap (fun d =>
          (lookupDomain all_patterns.domain_specific d).map
            (fun cfg => (d, JValue.arr cfg.patterns)))))]

/-! ## core/stages.py -/

/-- Embedding of `gremlin.core.stages.UnderstandingResult`. -/
structure UnderstandingResult where
  scope : String
  matched_domains : List String
  depth : String
  threshold : Int
  context : Option String
  version : String
deriving Repr

/-- Embedding of `gremlin.core.stages.IdeationResult`
(`selected_patterns` is an arbitrary JSON dict, as in the source). -/
structure IdeationResult where
  understanding : UnderstandingResult
  selected_patterns : JValue
  pattern_count : Int
  version : String
deriving Repr

/-- Embedding of `gremlin.core.stages.RolloutResult`. -/
structure RolloutResult where
  ideation : IdeationResult
  raw_response : String
  version : String
deriving Repr

/-- Embedding of `gremlin.core.stages.JudgmentResult`
(risks are serialized `Risk` dicts, kept as JSON values). -/
structure JudgmentResult where
  rollout : RolloutResult
  risks : List JValue
  validation_summary : Option String
  validated : Bool
  version : String
deriving Repr

/-- The `_SCHEMA_VERSION` constant of `stages.py`. -/
def SCHEMA_VERSION : String := "1"

/-! ### Serialization (`to_dict` / `from_dict`)

The Python `from_dict` methods do not type-check field values; the typed
Lean fields make the decoders partial (`Option`), which only rules out
inputs the Python constructors would store ill-typed. -/

/-- Decode a JSON string. -/
def asStr : JValue → Option String
  | .str s => some s
  | _ => none

/-- Decode a JSON integer. -/
def asInt : JValue → Option Int
  | .int n => some n
  | _ => none

/-- Decode a JSON boolean. -/
def asBool : JValue → Option Bool
  | .bool b => some b
  | _ => none

/-- Decode a JSON value that is either `null` or a string
(Python `str | None` fields). -/
def asOptStr : JValue → Option (Option String)
  | .null => some none
  | .str s => some (some s)
  | _ => none

/-- Decode a list of JSON strings. -/
def decodeStrs : List JValue → Option (List String)
  | [] => some []
  | v :: vs =>
    match asStr v with
    | some s => (decodeStrs vs).map (s :: ·)
    | none => none

/-- Decode a JSON array of strings. -/
def asStrList : JValue → Option (List String)
  | .arr l => decodeStrs l
  | _ => none

/-- Decode a JSON array, keeping the elements as raw values. -/
def asArr : JValue → Option (List JValue)
  | .arr l => some l
  | _ => none

/-- Embedding of `UnderstandingResult.to_dict`. -/
def UnderstandingResult.to_dict (u : UnderstandingResult) : JValue :=
  .obj [("version", .str u.version),
        ("scope", .str u.scope),
        ("matched_domains", .arr (u.matched_domains.map .str)),
        ("depth", .str u.depth),
        ("threshold", .int u.threshold),
        ("context", match u.context with
          | none => .null
          | some s => .str s)]

/-- Embedding of `UnderstandingResult.from_dict`: `scope` is required
(`d["scope"]`), the remaining fields fall back to the source's defaults. -/
def UnderstandingResult.from_dict (j : JValue) : Option UnderstandingResult :=
  match j with
  | .obj d => do
    let scope ← (jget d "scope").bind asStr
    let matched_domains ← match jget d "matched_domains" with
      | none => some []
      | some v => asStrList v
    let depth ← match jget d "depth" with
      | none => some "quick"
      | some v => asStr v
    let threshold ← match jget d "threshold" with
      | none => some (80 : Int)
      | some v => asInt v
    let context ← match jget d "context" with
      | none => some none
      | some v => asOptStr v
    let version ← match jget d "version" with
      | none => some SCHEMA_VERSION
      | some v => asStr v
    some { scope := scope, matched_domains := matched_domains, depth := depth,
           threshold := threshold, context := context, version := version }
  | _ => none

/-- Embedding of `IdeationResult.to_dict`. -/
def IdeationResult.to_dict (i : IdeationResult) : JValue :=
  .obj [("version", .str i.version),
        ("understanding", i.understanding.to_dict),
        ("selected_patterns", i.selected_patterns),
        ("pattern_count", .int i.pattern_count)]

/-- Embedding of `IdeationResult.from_dict`: `understanding` is required,
`selected_patterns` is taken as-is (default `{}`), `pattern_count`
defaults to 0. -/
def IdeationResult.from_dict (j : JValue) : Option IdeationResult :=
  match j with
  | .obj d => do
    let understanding ← (jget d "understanding").bind UnderstandingResult.from_dict
    let selected_patterns := jgetD d "selected_patterns" (.obj [])
    let pattern_count ← match jget d "pattern_count" with
      | none => some (0 : Int)
      | some v => asInt v
    let version ← match jget d "version" with
      | none => some SCHEMA_VERSION
      | some v => asStr v
    some { understanding := understanding, selected_patterns := selected_patterns,
           pattern_count := pattern_count, version := version }
  | _ => none

/-- Embedding of `RolloutResult.to_dict`. -/
def RolloutResult.to_dict (r : RolloutResult) : JValue :=
  .obj [("version", .str r.version),
        ("ideation", r.ideation.to_dict),
        ("raw_response", .str r.raw_response)]

/-- Embedding of `RolloutResult.from_dict`. -/
def RolloutResult.from_dict (j : JValue) : Option RolloutResult :=
  match j with
  | .obj d => do
    let ideation ← (jget d "ideation").bind IdeationResult.from_dict
    let raw_response ← match jget d "raw_response" with
      | none => some ""
      | some v => asStr v
    let version ← match jget d "version" with
      | none => some SCHEMA_VERSION
      | some v => asStr v
    some { ideation := ideation, raw_response := raw_response, version := version }
  | _ => none

/-- Embedding of `JudgmentResult.to_dict` (risks are stored as-is, as
serialized dicts). -/
def JudgmentResult.to_dict (j : JudgmentResult) : JValue :=
  .obj [("version", .str j.version),
        ("rollout", j.rollout.to_dict),
        ("risks", .arr j.risks),
        ("validation_summary", match j.validation_summary with
          | none => .null
          | some s => .str s),
        ("validated", .bool j.validated)]

/-- Embedding of `JudgmentResult.from_dict`. -/
def JudgmentResult.from_dict (v : JValue) : Option JudgmentResult :=
  match v with
  | .obj d => do
    let rollout ← (jget d "rollout").bind RolloutResult.from_dict
    let risks ← match jget d "risks" with
      | none => some []
      | some v => asArr v
    let validation_summary ← match jget d "validation_summary" with
      | none => some none
      | some v => asOptStr v
    let validated ← match jget d "validated" with
      | none => some false
      | some v => asBool v
    let version ← match jget d "version" with
      | none => some SCHEMA_VERSION
      | some v => asStr v
    some { rollout := rollout, risks := risks,
           validation_summary := validation_summary, validated := validated,
           version := version }
  | _ => none

theorem decodeStrs_map_str (l : List String) :
    decodeStrs (l.map .str) = some l := by
  induction l with
  | nil => rfl
  | cons s rest ih => simp [decodeStrs, asStr, ih]

theorem understanding_roundtrip_aux (u : UnderstandingResult) :
    UnderstandingResult.from_dict u.to_dict = some u := by
  cases u with
  | mk scope matched_domains depth threshold context version =>
    cases context <;>
      simp [UnderstandingResult.to_dict, UnderstandingResult.from_dict, jget,
        asStr, asInt, asOptStr, asStrList, decodeStrs_map_str]

theorem ideation_roundtrip_aux (i : IdeationResult) :
    IdeationResult.from_dict i.to_dict = some i := by
  cases i with
  | mk understanding selected_patterns pattern_count version =>
    simp [IdeationResult.to_dict, IdeationResult.from_dict, jget, jgetD,
      asInt, asStr, understanding_roundtrip_aux]

theorem rollout_roundtrip_aux (r : RolloutResult) :
    RolloutResult.from_dict r.to_dict = some r := by
  cases r with
  | mk ideation raw_response version =>
    simp [RolloutResult.to_dict, RolloutResult.from_dict, jget, asStr,
      ideation_roundtrip_aux]

theorem judgment_roundtrip_aux (j : JudgmentResult) :
    JudgmentResult.from_dict j.to_dict = some j := by
  cases j with
  | mk rollout risks validation_summary validated version =>
    cases validation_summary <;>
      simp [JudgmentResult.to_dict, JudgmentResult.from_dict, jget, asStr,
        asBool, asArr, asOptStr, rollout_roundtrip_aux]

/-- C3: every stage artifact of the four types round-trips losslessly:
`from_dict (to_dict x) = x`, deep equality included (each `from_dict`
rebuilds the embedded upstream chain).  The dict is modeled as a `JValue`,
on which a JSON serialize/deserialize cycle is the identity, so the
round-trip also holds across a JSON cycle. -/
theorem stage_artifacts_roundtrip (u : UnderstandingResult)
    (i : IdeationResult) (r : RolloutResult) (j : JudgmentResult) :
    UnderstandingResult.from_dict u.to_dict = some u ∧
      IdeationResult.from_dict i.to_dict = some i ∧
      RolloutResult.from_dict r.to_dict = some r ∧
      JudgmentResult.from_dict j.to_dict = some j :=
  ⟨understanding_roundtrip_aux u, ideation_roundtrip_aux i,
    rollout_roundtrip_aux r, judgment_roundtrip_aux j⟩

/-! ## api.py pipeline stages: Understanding and Ideation -/

/-- Embedding of `Gremlin._run_understanding` (api.py): runs
`infer_domains` and packages the result.  `infer_domains` is total, so the
`except` wrapper of the source is unreachable here. -/
def run_understanding (domain_keywords : List (String × List String))
    (threshold : Int) (scope : String) (context : Option String)
    (depth : String) : UnderstandingResult :=
  { scope := scope
    matched_domains := infer_domains scope domain_keywords
    depth := depth
    threshold := threshold
    context := context
    version := SCHEMA_VERSION }

/-! ## core/prompts.py -/

mutual

/-- Deterministic stand-in for the external `yaml.dump` library call used
by `build_prompt`.  Its exact text is irrelevant to every theorem below
(the claims concern the user message, which contains no YAML). -/
def yamlDump : JValue → String
  | .null => "null"
  | .bool b => if b then "true" else "false"
  | .int n => toString n
  | .str s => s
  | .arr l => yamlDumpArr l
  | .obj l => yamlDumpObj l

/-- YAML list rendering for `yamlDump`. -/
def yamlDumpArr : List JValue → String
  | [] => "[]"
  | v :: vs => "- " ++ yamlDump v ++ "\n" ++ yamlDumpArr vs

/-- YAML mapping rendering for `yamlDump`. -/
def yamlDumpObj : List (String × JValue) → String
  | [] => "\x7b\x7d"
  | (k, v) :: vs => k ++ ": " ++ yamlDump v ++ "\n" ++ yamlDumpObj vs

end

/-- Embedding of `gremlin.core.prompts.build_prompt` as written in the
source: FIVE parameters and no `context` anywhere (its callers in
`api.py:397` and `cli.py:188` pass a sixth `context` argument, a
`TypeError` at run time — see the C2 result). -/
def build_prompt (system_prompt : String) (selected_patterns : JValue)
    (scope : String) (depth : String) (threshold : Int) : String × String :=
  let patterns_yaml := yamlDump selected_patterns
  let full_system :=
    system_prompt ++ "\n\n## Available Breaking Patterns\n\n" ++ patterns_yaml ++ "\n"
  let user_msg :=
    "Analyze this scope for risks: **" ++ scope ++ "**\n\nDepth: " ++ depth ++
    "\nConfidence threshold: Only include scenarios where you\x27re >" ++
    toString threshold ++
    "% confident this could actually happen.\n\nApply the breaking patterns above. For each risk scenario:\n1. State the \"what if?\" question\n2. Explain the potential impact\n3. Rate severity (critical/high/medium/low)\n4. Provide your confidence percentage\n\nFocus on non-obvious risks. Skip generic advice."
  (full_system, user_msg)

set_option maxRecDepth 10000 in
/-- C2: the claim says `build_prompt` accepts a `context` argument and
embeds a supplied context as a clearly labeled section of the user
message.  The source `build_prompt` has no `context` parameter at all;
concretely, its user message contains no `Context` label and no trace of
the context text a caller of `analyze` supplies. -/
theorem build_prompt_has_no_context_section :
    containsSub "Context".data
        (build_prompt "SYS" (.obj []) "checkout flow" "quick" 80).2.data = false ∧
      containsSub "Using Stripe with webhooks".data
        (build_prompt "SYS" (.obj []) "checkout flow" "quick" 80).2.data = false := by
  constructor <;> decide

/-- Embedding of `Gremlin._run_ideation` (api.py): selects patterns and
computes `pattern_count` as
`len(selected.get("universal", [])) + sum(len(p) for p in
selected.get("domain_specific", {}).values())` — note the lookup key
`"domain_specific"`, while `select_patterns` stores the domain lists under
the key `"domain"`. -/
def run_ideation (patterns : Catalog) (u : UnderstandingResult) :
    IdeationResult :=
  let selected := select_patterns u.scope patterns u.matched_domains
  let selObj := match selected with
    | .obj l => l
    | _ => []
  let domainPart := match jgetD selObj "domain_specific" (.obj []) with
    | .obj entries => (entries.map (fun e => jlen e.2)).sum
    | _ => 0
  let pattern_count : Int :=
    Int.ofNat (jlen (jgetD selObj "universal" (.arr []))) + Int.ofNat domainPart
  { understanding := u
    selected_patterns := selected
    pattern_count := pattern_count
    version := SCHEMA_VERSION }

/-- Modelled from the spec (§4.6 Ideation wording, for comparison with the
source): the pattern count the claim describes — the universal pattern
count plus the pattern counts of all selected domain lists returned by
`select_patterns` (which stores them under the key `"domain"`). -/
def claimedPatternCount (selected : JValue) : Nat :=
  let selObj := match selected with
    | .obj l => l
    | _ => []
  jlen (jgetD selObj "universal" (.arr [])) +
    (match jgetD selObj "domain" (.obj []) with
     | .obj entries => (entries.map (fun e => jlen e.2)).sum
     | _ => 0)

/-- Concrete catalog for the C1 failing input: no universal patterns, one
`payments` domain with two patterns, triggered by keyword `checkout`. -/
def c1Catalog : Catalog :=
  { universal := []
    domain_specific :=
      [("payments",
        { keywords := ["checkout"]
          patterns := [.str "What if payment is charged twice", .str "What if a refund races a charge"] })] }

/-- The Understanding artifact of the C1 failing input. -/
def c1U : UnderstandingResult :=
  run_understanding (get_domain_keywords c1Catalog) 80 "checkout flow" none "quick"

/-- C1: the Ideation stage is claimed to compute `pattern_count` as the
universal count plus all selected domain-specific counts, but the code
reads the key `"domain_specific"` from a selection dict whose domain lists
are stored under `"domain"`, so the domain contribution is always 0: on a
catalog with two `payments` patterns and a scope matching `payments`, the
code yields 0 while the claimed sum is 2. -/
theorem run_ideation_drops_domain_counts :
    (run_ideation c1Catalog c1U).pattern_count = 0 ∧
      c1U.matched_domains = ["payments"] ∧
      claimedPatternCount (select_patterns "checkout flow" c1Catalog
        c1U.matched_domains) = 2 := by
  refine ⟨rfl, rfl, rfl⟩

/-! ## api.py response parser (`Gremlin._parse_risks`)

The parser's regexes are embedded as deterministic scanners.  For each
regex the greedy/optional parts are resolved without backtracking; this is
equivalent here because every optional token (`-?`, `\[?`, `\]?`, `:?`,
`%?`, the emoji marker) can never begin an alternative successful match
when consuming it fails (none of them overlaps the character class that
follows). -/

/-- Consume one leading occurrence of `c` if present (regex `c?`). -/
def dropOpt (c : Char) : List Char → List Char
  | x :: xs => if x = c then xs else x :: xs
  | [] => []

/-- Consume one leading character satisfying `p` if present. -/
def dropOptP (p : Char → Bool) : List Char → List Char
  | x :: xs => if p x then xs else x :: xs
  | [] => []

/-- The four severity-color emoji of `_HEADER_PATTERN`
(red, orange, yellow, green circles). -/
def isSevEmoji (c : Char) : Bool :=
  c.toNat = 0x1F534 || c.toNat = 0x1F7E0 || c.toNat = 0x1F7E1 || c.toNat = 0x1F7E2

/-- Regex `\w` (ASCII portion: letters, digits, underscore). -/
def isWordChar (c : Char) : Bool :=
  c.isAlphanum || c = '_'

/-- Embedding of `_HEADER_PATTERN.match` (anchored):
`^\s*(?:emoji)?\s*\[?(\w+)\]?\s*\((\d+)%?\)`; returns the severity word
and the confidence digits on success. -/
def headerMatch (l : List Char) : Option (List Char × List Char) :=
  let l1 := l.dropWhile isWs
  let l2 := dropOptP isSevEmoji l1
  let l3 := l2.dropWhile isWs
  let l4 := dropOpt '[' l3
  let w := l4.takeWhile isWordChar
  if w.isEmpty then none
  else
    let r := l4.dropWhile isWordChar
    let r1 := dropOpt ']' r
    let r2 := r1.dropWhile isWs
    match r2 with
    | '(' :: r3 =>
      let ds := r3.takeWhile Char.isDigit
      if ds.isEmpty then none
      else
        match dropOpt '%' (r3.dropWhile Char.isDigit) with
        | ')' :: _ => some (w, ds)
        | _ => none
    | _ => none

/-- Decimal value of a digit run. -/
def digitsVal (ds : List Char) : Nat :=
  ds.foldl (fun a c => a * 10 + (c.toNat - 48)) 0

/-- Model of Python `int(s)` on a regex `\d+` capture: succeeds exactly on
nonempty digit runs (so the parser's `except` fallback to 50 is
unreachable for captures of `_HEADER_PATTERN`). -/
def pyInt (ds : List Char) : Option Int :=
  if ds ≠ [] ∧ ds.all Char.isDigit then some (Int.ofNat (digitsVal ds)) else none

/-- Model of `str.strip('*')`. -/
def stripStars (t : List Char) : List Char :=
  ((t.dropWhile (· = '*')).reverse.dropWhile (· = '*')).reverse

/-- Non-greedy inner capture of `\*\*(.+?)\*\*` after the opening `**`:
the shortest nonempty prefix followed by `**`. -/
def boldInner : List Char → Option (List Char)
  | [] => none
  | c :: cs =>
    if isPrefixL ['*', '*'] cs then some [c]
    else (boldInner cs).map (c :: ·)

/-- Anchored attempt of `\*\*(.+?)\*\*`. -/
def boldAt : List Char → Option (List Char)
  | '*' :: '*' :: rest => boldInner rest
  | _ => none

/-- `re.search(r'\*\*(.+?)\*\*', line)`: leftmost match wins. -/
def boldSearch : List Char → Option (List Char)
  | [] => none
  | c :: cs =>
    match boldAt (c :: cs) with
    | some inner => some inner
    | none => boldSearch cs

/-- The title loop body over `lines[1:5]`: first line that is entirely
bold (strip the stars) or contains an inline bold span (take the span). -/
def titleScan : List (List Char) → List Char
  | [] => []
  | l :: ls =>
    let t := strip l
    if isPrefixL ['*', '*'] t && isPrefixL ['*', '*'] t.reverse then
      strip (stripStars t)
    else
      match boldSearch t with
      | some inner => strip inner
      | none => titleScan ls

/-- Title extraction of `_parse_risks`: scan `lines[1:5]`. -/
def extractTitle (lines : List (List Char)) : List Char :=
  titleScan ((lines.drop 1).take 4)

/-- Stripped-line blockquote test (`line_stripped.startswith('>')`). -/
def isBlockquoteS (s : List Char) : Bool :=
  match s with
  | '>' :: _ => true
  | _ => false

/-- Stripped-line test `line_stripped.lower().startswith('what if')`. -/
def isWhatIf (s : List Char) : Bool :=
  isPrefixL "what if".data (lowerL s)

/-- Scenario extraction of `_parse_risks`: one left-to-right scan; a
blockquote line yields its text after `>` (stripped), otherwise a line
whose trimmed text starts case-insensitively with `what if` yields the
trimmed line; the first line of either kind stops the scan. -/
def extractScenario : List (List Char) → List Char
  | [] => []
  | l :: ls =>
    let s := strip l
    if isBlockquoteS s then strip s.tail
    else if isWhatIf s then s
    else extractScenario ls

/-- Case-insensitive literal consumption (regex `IGNORECASE`, ASCII). -/
def dropCI : List Char → List Char → Option (List Char)
  | [], s => some s
  | _ :: _, [] => none
  | c :: cs, x :: xs =>
    if lowerChar x = lowerChar c then dropCI cs xs else none

/-- Anchored attempt of `-?\s*\*\*LABEL:?\*\*\s*(.+)` (the shape of
`_IMPACT_PATTERN` and `_DOMAIN_PATTERN`), returning the capture already
`.strip()`-ed.  A match exists iff the label shape is present and at least
one character follows the closing `**` (regex `(.+)` needs one). -/
def labelMatchAt (label : List Char) (s : List Char) : Option (List Char) :=
  let s1 := dropOpt '-' s
  let s2 := s1.dropWhile isWs
  match s2 with
  | '*' :: '*' :: s3 =>
    (match dropCI label s3 with
     | none => none
     | some s4 =>
       let s5 := dropOpt ':' s4
       match s5 with
       | '*' :: '*' :: s6 => if s6.isEmpty then none else some (strip s6)
       | _ => none)
  | _ => none

/-- `re.search` with a label pattern: leftmost successful start. -/
def labelSearch (label : List Char) : List Char → Option (List Char)
  | [] => none
  | c :: cs =>
    match labelMatchAt label (c :: cs) with
    | some r => some r
    | none => labelSearch label cs

/-- Impact extraction of `_parse_risks`: first line with an
`**Impact:**` bullet; capture is stripped, scan stops at the first
matching line even when the stripped capture is empty. -/
def extractImpact : List (List Char) → List Char
  | [] => []
  | l :: ls =>
    match labelSearch "impact".data l with
    | some cap => cap
    | none => extractImpact ls

/-- Domain extraction of `_parse_risks`: first line with a
`**Domain:**` bullet; its capture is split on commas and each piece
stripped.  `none` means no line matched (caller falls back to the
pipeline's matched domains). -/
def extractDomains : List (List Char) → Option (List String)
  | [] => none
  | l :: ls =>
    match labelSearch "domain".data l with
    | some cap => some ((splitOnChar ',' cap).map (fun p => String.mk (strip p)))
    | none => extractDomains ls

/-- Anchored attempt of the section splitter `\n#{2,3}\s+`: newline, two
or three hashes (greedy, but a third hash not followed by whitespace
forces overall failure, as in the regex), then a greedy nonempty
whitespace run; returns the remainder after the match. -/
def splitMatchAt : List Char → Option (List Char)
  | '\n' :: '#' :: '#' :: '#' :: c :: cs =>
    if isWs c then some (cs.dropWhile isWs) else none
  | '\n' :: '#' :: '#' :: c :: cs =>
    if isWs c then some (cs.dropWhile isWs) else none
  | _ => none

theorem length_dropWhile_le (p : Char → Bool) (l : List Char) :
    (l.dropWhile p).length ≤ l.length := by
  induction l with
  | nil => simp
  | cons c cs ih =>
    by_cases h : p c
    · simp only [List.dropWhile, h, List.length_cons]
      omega
    · simp [List.dropWhile, h]

theorem splitMatchAt_lt {s r : List Char} (h : splitMatchAt s = some r) :
    r.length < s.length := by
  unfold splitMatchAt at h
  split at h
  all_goals first
    | (split at h
       · injection h with h
         subst h
         refine lt_of_le_of_lt (length_dropWhile_le isWs _) ?_
         simp only [List.length_cons]
         omega
       · exact absurd h (by simp))
    | exact absurd h (by simp)

/-- `re.split(r'\n#{2,3}\s+', s)`: left-to-right, non-overlapping scan.
The scan is written with explicit fuel so that it is structurally
recursive (and therefore evaluates inside the kernel); every step shortens
the input by at least one character (`splitMatchAt_lt`), so with
`fuel = s.length` the fuel-exhausted branch is unreachable. -/
def reSplitGo (fuel : Nat) (acc s : List Char) : List (List Char) :=
  match fuel, s with
  | _, [] => [acc.reverse]
  | 0, s => [acc.reverse ++ s]
  | Nat.succ f, c :: cs =>
    match splitMatchAt (c :: cs) with
    | some rest => acc.reverse :: reSplitGo f [] rest
    | none => reSplitGo f (c :: acc) cs

/-- Split a text at `## ` / `### ` heading boundaries. -/
def reSplit (s : List Char) : List (List Char) :=
  reSplitGo s.length [] s

/-- Embedding of the `Risk` dataclass of api.py. -/
structure Risk where
  severity : String
  confidence : Int
  scenario : String
  impact : String
  domains : List String
  title : String
deriving Repr, DecidableEq

/-- Embedding of `Risk.to_dict`. -/
def Risk.to_dict (r : Risk) : JValue :=
  .obj [("severity", .str r.severity),
        ("confidence", .int r.confidence),
        ("scenario", .str r.scenario),
        ("impact", .str r.impact),
        ("domains", .arr (r.domains.map .str)),
        ("title", .str r.title)]

/-- The per-section body of `_parse_risks`: strip the section, skip it if
empty or if its first line fails `_HEADER_PATTERN`, extract the fields,
and emit a `Risk` only when both scenario and impact are nonempty. -/
def processSection (domains : List String) (secRaw : List Char) : Option Risk :=
  let sec := strip secRaw
  if sec.isEmpty then none
  else
    match splitOnChar '\n' sec with
    | [] => none
    | l0 :: rest =>
      let lines := l0 :: rest
      match headerMatch l0 with
      | none => none
      | some (w, ds) =>
        let severity := String.mk (upperL w)
        let confidence : Int :=
          match pyInt ds with
          | some n => n
          | none => 50
        let title := String.mk (extractTitle lines)
        let scenario := extractScenario lines
        let impact := extractImpact lines
        let risk_domains :=
          match extractDomains lines with
          | some l => l
          | none => domains
        if scenario.isEmpty || impact.isEmpty then none
        else
          some { severity := severity, confidence := confidence,
                 scenario := String.mk scenario, impact := String.mk impact,
                 domains := risk_domains, title := title }

/-- Embedding of `Gremlin._parse_risks`: prepend a newline, split at
`##`/`###` heading boundaries, drop the text before the first heading,
and parse each section. -/
def parseRisks (response_text : String) (domains : List String) : List Risk :=
  let sections := reSplit ('\n' :: response_text.data)
  (sections.drop 1).filterMap (processSection domains)

/-! ### Parser invariants and counterexamples -/

theorem mk_ne_empty {l : List Char} (h : l.isEmpty = false) :
    String.mk l ≠ "" := by
  intro he
  have hd : l = "".data := congrArg String.data he
  simp at hd
  subst hd
  simp [List.isEmpty] at h

/-- Shared invariant of the per-section parser: an emitted risk has a
nonempty scenario, a nonempty impact, and a nonnegative confidence. -/
theorem processSection_inv {domains : List String} {sec : List Char}
    {r : Risk} (h : processSection domains sec = some r) :
    r.scenario ≠ "" ∧ r.impact ≠ "" ∧ 0 ≤ r.confidence := by
  simp only [processSection] at h
  split at h
  · exact absurd h (by simp)
  · split at h
    · exact absurd h (by simp)
    · split at h
      · exact absurd h (by simp)
      · split at h
        · exact absurd h (by simp)
        · rename_i hcond
          injection h with h
          subst h
          simp only [Bool.or_eq_true, not_or, Bool.not_eq_true] at hcond
          refine ⟨mk_ne_empty hcond.1, mk_ne_empty hcond.2, ?_⟩
          simp only
          split
          · rename_i n hn
            unfold pyInt at hn
            split at hn
            · injection hn with hn
              subst hn
              exact Int.ofNat_nonneg _
            · exact absurd hn (by simp)
          · norm_num

/-- C5: every `Risk` the response parser emits has a nonempty scenario and
a nonempty impact; a section missing either contributes no risk and no
placeholder text is ever substituted. -/
theorem parseRisks_scenario_impact_nonempty (text : String)
    (domains : List String) :
    ∀ r ∈ parseRisks text domains, r.scenario ≠ "" ∧ r.impact ≠ "" := by
  intro r hr
  unfold parseRisks at hr
  obtain ⟨sec, _, hsec⟩ := List.mem_filterMap.mp hr
  exact ⟨(processSection_inv hsec).1, (processSection_inv hsec).2.1⟩

/-- Sample well-formed response used to witness C5. -/
def c5text : String :=
  "## CRITICAL (95%)\n**Payment Race Condition**\n> What if payment succeeds but order fails?\n- **Impact:** Customer charged twice\n- **Domain:** payments"

/-- The risk the parser emits for `c5text`. -/
def c5risk : Risk :=
  { severity := "CRITICAL", confidence := 95,
    scenario := "What if payment succeeds but order fails?",
    impact := "Customer charged twice", domains := ["payments"],
    title := "Payment Race Condition" }

set_option maxRecDepth 10000 in
/-- Witness for C5 at a concrete parsed response. -/
theorem parseRisks_scenario_impact_nonempty_witness :
    c5risk.scenario ≠ "" ∧ c5risk.impact ≠ "" :=
  parseRisks_scenario_impact_nonempty c5text ["fallback"] c5risk (by decide)

theorem splitMatchAt_none_noHash {s : List Char} (h : '#' ∉ s) :
    splitMatchAt s = none := by
  unfold splitMatchAt
  split
  · exfalso; simp at h
  · exfalso; simp at h
  · rfl

theorem reSplitGo_noHash (fuel : Nat) :
    ∀ s acc : List Char, '#' ∉ s → reSplitGo fuel acc s = [acc.reverse ++ s] := by
  induction fuel with
  | zero =>
    intro s acc _
    cases s <;> simp [reSplitGo]
  | succ f ih =>
    intro s acc h
    cases s with
    | nil => simp [reSplitGo]
    | cons c cs =>
      have hm : splitMatchAt (c :: cs) = none := splitMatchAt_none_noHash h
      have hcs : '#' ∉ cs := fun hmem => h (List.mem_cons_of_mem _ hmem)
      simp only [reSplitGo, hm]
      rw [ih cs (c :: acc) hcs]
      simp

/-- C6: the parser is a total function (it is a Lean `def`, so it
terminates and raises nothing), and on any input containing no markdown
heading marker `#` it returns the empty risk list. -/
theorem parseRisks_no_heading_empty (text : String) (domains : List String)
    (h : '#' ∉ text.data) : parseRisks text domains = [] := by
  unfold parseRisks
  have h2 : '#' ∉ '\n' :: text.data := by
    intro hmem
    rcases List.mem_cons.mp hmem with heq | hmem2
    · exact absurd heq (by decide)
    · exact h hmem2
  rw [reSplit, reSplitGo_noHash _ _ _ h2]
  simp

/-- Witness for C6 at a concrete heading-free input. -/
theorem parseRisks_no_heading_empty_witness :
    parseRisks "plain text: no headings anywhere, just prose" ["d"] = [] :=
  parseRisks_no_heading_empty _ ["d"] (by decide)

/-- Response whose section has a `what if` line before a blockquote line. -/
def c7text : String :=
  "## HIGH (90%)\nWhat if A happens?\n> Blockquote scenario\n- **Impact:** Bad things"

set_option maxRecDepth 10000 in
/-- C7 counterexample: the claim says a blockquote line anywhere in the
section takes precedence, but the code's single scan takes the first line
of either kind: here a `what if` line precedes a blockquote line and wins,
so the extracted scenario is not the blockquote text. -/
theorem scenario_whatif_precedes_blockquote :
    (parseRisks c7text []).map Risk.scenario = ["What if A happens?"] ∧
      containsSub "> Blockquote scenario".data c7text.data = true ∧
      "What if A happens?" ≠ "Blockquote scenario" := by
  refine ⟨by decide, by decide, by decide⟩

/-- C7 amended: scenario extraction is one left-to-right scan; the first
line that is blockquote-prefixed or starts (case-insensitively, after
trimming) with `what if` supplies the scenario — a blockquote wins only
when no `what if` line precedes it. -/
theorem extractScenario_first_match (lines : List (List Char)) :
    extractScenario lines =
      match lines.find? (fun l => isBlockquoteS (strip l) || isWhatIf (strip l)) with
      | some l => if isBlockquoteS (strip l) then strip (strip l).tail
                  else strip l
      | none => [] := by
  induction lines with
  | nil => rfl
  | cons l ls ih =>
    simp only [extractScenario, List.find?_cons]
    cases hb : isBlockquoteS (strip l) with
    | true => simp [hb]
    | false =>
      cases hw : isWhatIf (strip l) with
      | true => simp [hb, hw]
      | false => simpa [hb, hw] using ih

/-- Response with an out-of-range confidence percentage. -/
def c8text : String :=
  "## HIGH (999%)\n> What if overload?\n- **Impact:** Bad"

set_option maxRecDepth 10000 in
/-- C8 counterexample: the header capture `(\d+)` is not range-checked, so
a `(999%)` header yields a risk with confidence 999 > 100. -/
theorem parseRisks_confidence_can_exceed_100 :
    (parseRisks c8text []).map Risk.confidence = [999] ∧
      ¬((999 : Int) ≤ 100) := by
  refine ⟨by decide, by decide⟩

/-- C8 amended: every parsed risk's confidence is a nonnegative integer —
the value of the captured digit run (or the 50 fallback of the source's
`except` branch, which a `\d+` capture can never trigger) — with no upper
bound: values above 100 are not clamped. -/
theorem parseRisks_confidence_nonneg (text : String) (domains : List String) :
    ∀ r ∈ parseRisks text domains, 0 ≤ r.confidence := by
  intro r hr
  unfold parseRisks at hr
  obtain ⟨sec, _, hsec⟩ := List.mem_filterMap.mp hr
  exact (processSection_inv hsec).2.2

/-- The risk the parser emits for `c8text`. -/
def c8risk : Risk :=
  { severity := "HIGH", confidence := 999, scenario := "What if overload?",
    impact := "Bad", domains := [], title := "Impact:" }

set_option maxRecDepth 10000 in
/-- Witness for the amended C8 at a concrete parsed response. -/
theorem parseRisks_confidence_nonneg_witness : 0 ≤ c8risk.confidence :=
  parseRisks_confidence_nonneg c8text [] c8risk (by decide)

/-! ## Rollout and Judgment stages, exceptions, validation fallback -/

/-- Python exceptions as the stage code distinguishes them:
`RuntimeError` (the tag carrier) versus everything else
(`other` keeps the exception class name and its `str(e)` message). -/
inductive PyExc where
  | runtime (msg : String)
  | other (etype : String) (msg : String)
deriving Repr, DecidableEq

/-- Embedding of `gremlin.llm.base.LLMResponse`; the metadata fields
(`model`, `provider`, `usage`, `raw_response`) are never consumed by the
pipeline and are omitted. -/
structure LLMResp where
  text : String
deriving Repr, DecidableEq

/-- Modelled from the spec: `gremlin.core.validator` is imported by api.py
but its module is missing from the source tree (only its tests exist).
Per §4.5, the validation system prompt instructs the engine to check each
risk for domain relevance, specificity and duplication, to reject risks
failing any check, and to return the survivors in the original format
followed by a short validation summary after a clear delimiter. -/
def VALIDATION_SYSTEM_PROMPT : String :=
  "You review risk analyses for quality. Validate each risk: check domain relevance, check specificity (reject generic or boilerplate risks), and reject duplicates. Return the surviving risks in their original format, then append a short validation summary after a --- delimiter."

/-- Modelled from the spec: `build_validation_prompt(scope, raw_response)`
builds the second-pass user message from the original scope and the
first-pass raw output (§4.5). -/
def build_validation_prompt (scope : String) (raw_response : String) : String :=
  "Validate this risk analysis for the scope: " ++ scope ++
    "\n\nRisks to review:\n" ++ raw_response

/-- Model of `str.split("---")` (left-to-right, non-overlapping). -/
def splitDashes : List Char → List (List Char)
  | '-' :: '-' :: '-' :: rest => [] :: splitDashes rest
  | c :: cs =>
    match splitDashes cs with
    | [] => [[c]]
    | p :: ps => (c :: p) :: ps
  | [] => [[]]

/-- Embedding of `Gremlin._run_rollout` (api.py).  The body is
parameterized by the prompt builder with the six-argument interface the
call site uses (`api.py:397` passes `context` as a sixth argument; the
five-parameter `core.prompts.build_prompt` cannot receive it — the C2
defect — so the stage is modeled against the call-site interface) and by
the provider's `complete`.  The `except` clauses are embedded exactly:
a `RuntimeError` is re-raised unchanged, any other exception is wrapped
as `RuntimeError("[rollout stage] " + str(e))`. -/
def run_rollout
    (bp : String → JValue → String → String → Int → Option String → String × String)
    (complete : String → String → Except PyExc LLMResp)
    (system_prompt : String) (i : IdeationResult) : Except PyExc RolloutResult :=
  let u := i.understanding
  let p := bp system_prompt i.selected_patterns u.scope u.depth u.threshold u.context
  match complete p.1 p.2 with
  | .ok resp =>
    .ok { ideation := i, raw_response := resp.text, version := SCHEMA_VERSION }
  | .error (.runtime m) => .error (.runtime m)
  | .error (.other _ m) => .error (.runtime ("[rollout stage] " ++ m))

/-- Embedding of `Gremlin._run_judgment` (api.py).  With `validate=True`
the validation call is attempted inside an inner `try`: on success its
text replaces the response (and a summary is cut after the last `---`);
on any exception the original raw response is kept with
`validated=False` and no summary.  The rest of the body is total, so the
outer `except` wrapper of the source is unreachable and the stage always
returns `ok`. -/
def run_judgment (complete : String → String → Except PyExc LLMResp)
    (r : RolloutResult) (validate : Bool) : Except PyExc JudgmentResult :=
  let scope := r.ideation.understanding.scope
  let step : String × Bool × Option String :=
    if validate then
      match complete VALIDATION_SYSTEM_PROMPT
          (build_validation_prompt scope r.raw_response) with
      | .ok resp =>
        let t := resp.text
        let summary :=
          if containsSub ['-', '-', '-'] t.data then
            some (String.mk (strip ((splitDashes t.data).getLastD [])))
          else none
        (t, true, summary)
      | .error _ => (r.raw_response, false, none)
    else (r.raw_response, false, none)
  let risks := parseRisks step.1 r.ideation.understanding.matched_domains
  .ok { rollout := r
        risks := risks.map Risk.to_dict
        validation_summary := step.2.2
        validated := step.2.1
        version := SCHEMA_VERSION }

/-- Embedding of the `AnalysisResult` dataclass of api.py (the fields;
the derived counts and renderings are not needed by the claims). -/
structure AnalysisResult where
  scope : String
  risks : List Risk
  matched_domains : List String
  pattern_count : Int
  raw_response : String
  depth : String
  threshold : Int
deriving Repr, DecidableEq

/-- Chain accessor `JudgmentResult.scope` (stages.py `@property`). -/
def JudgmentResult.scope (j : JudgmentResult) : String :=
  j.rollout.ideation.understanding.scope

/-- Chain accessor `JudgmentResult.matched_domains`. -/
def JudgmentResult.matched_domains (j : JudgmentResult) : List String :=
  j.rollout.ideation.understanding.matched_domains

/-- Chain accessor `JudgmentResult.pattern_count`. -/
def JudgmentResult.pattern_count (j : JudgmentResult) : Int :=
  j.rollout.ideation.pattern_count

/-- Chain accessor `JudgmentResult.depth`. -/
def JudgmentResult.depth (j : JudgmentResult) : String :=
  j.rollout.ideation.understanding.depth

/-- Chain accessor `JudgmentResult.threshold`. -/
def JudgmentResult.threshold (j : JudgmentResult) : Int :=
  j.rollout.ideation.understanding.threshold

/-- Decoding of one serialized risk dict in `Gremlin._build_result`:
`severity`, `confidence`, `scenario`, `impact` are required lookups,
`domains` defaults to `[]` and `title` to `""`. -/
def riskOfDict (v : JValue) : Option Risk :=
  match v with
  | .obj d => do
    let severity ← (jget d "severity").bind asStr
    let confidence ← (jget d "confidence").bind asInt
    let scenario ← (jget d "scenario").bind asStr
    let impact ← (jget d "impact").bind asStr
    let domains ← match jget d "domains" with
      | none => some []
      | some v => asStrList v
    let title ← match jget d "title" with
      | none => some ""
      | some v => asStr v
    some { severity := severity, confidence := confidence, scenario := scenario,
           impact := impact, domains := domains, title := title }
  | _ => none

/-- Embedding of `Gremlin._build_result`. -/
def build_result (j : JudgmentResult) (raw_response : String) :
    Option AnalysisResult :=
  (j.risks.mapM riskOfDict).map (fun risks =>
    { scope := j.scope, risks := risks, matched_domains := j.matched_domains,
      pattern_count := j.pattern_count, raw_response := raw_response,
      depth := j.depth, threshold := j.threshold })

/-- C4: if the second-pass (validation) engine call raises any exception,
the Judgment stage still succeeds, its result equals the `validate=False`
result exactly — risks are the unvalidated parse of the original raw
response, `validated=False`, no validation summary — and the assembled
`AnalysisResult` is the same as on the unvalidated path. -/
theorem run_judgment_validation_fallback
    (complete : String → String → Except PyExc LLMResp) (r : RolloutResult)
    (h : ∃ e, complete VALIDATION_SYSTEM_PROMPT
      (build_validation_prompt r.ideation.understanding.scope r.raw_response) =
        .error e) :
    run_judgment complete r true = run_judgment complete r false ∧
      run_judgment complete r true = .ok
        { rollout := r
          risks := (parseRisks r.raw_response
            r.ideation.understanding.matched_domains).map Risk.to_dict
          validation_summary := none
          validated := false
          version := SCHEMA_VERSION } ∧
      (run_judgment complete r true).map (fun j => build_result j r.raw_response) =
        (run_judgment complete r false).map (fun j => build_result j r.raw_response) := by
  obtain ⟨e, he⟩ := h
  refine ⟨?_, ?_, ?_⟩ <;> simp [run_judgment, he]

/-- A provider whose every call raises `TimeoutError` (witness input). -/
def c4Complete : String → String → Except PyExc LLMResp :=
  fun _ _ => .error (.other "TimeoutError" "request timed out")

/-- Concrete rollout artifact for the C4 witness. -/
def c4R : RolloutResult :=
  { ideation :=
      { understanding :=
          { scope := "checkout", matched_domains := ["payments"],
            depth := "quick", threshold := 80, context := none, version := "1" }
        selected_patterns := .obj []
        pattern_count := 0
        version := "1" }
    raw_response := "## HIGH (90%)\n> What if the webhook retries?\n- **Impact:** double order"
    version := "1" }

/-- Witness for C4: with a provider whose validation call times out, the
validated and unvalidated judgment runs coincide. -/
theorem run_judgment_validation_fallback_witness :
    run_judgment c4Complete c4R true = run_judgment c4Complete c4R false :=
  (run_judgment_validation_fallback c4Complete c4R
    ⟨.other "TimeoutError" "request timed out", rfl⟩).1

/-- A provider that raises a bare `RuntimeError` (counterexample input). -/
def c9CompleteRT : String → String → Except PyExc LLMResp :=
  fun _ _ => .error (.runtime "Connection timeout")

/-- A provider that raises a `ValueError` (witness input). -/
def c9CompleteOther : String → String → Except PyExc LLMResp :=
  fun _ _ => .error (.other "ValueError" "boom")

/-- A prompt builder with the call-site interface (its output is
irrelevant to the tagging behavior under test). -/
def c9bp : String → JValue → String → String → Int → Option String → String × String :=
  fun _ _ _ _ _ _ => ("S", "U")

/-- Concrete ideation artifact for the C9 theorems. -/
def c9I : IdeationResult :=
  { understanding :=
      { scope := "checkout", matched_domains := [], depth := "quick",
        threshold := 80, context := none, version := "1" }
    selected_patterns := .obj []
    pattern_count := 0
    version := "1" }

/-- C9 counterexample: a `RuntimeError` raised by the reasoning-engine
provider during Rollout propagates out unchanged — it carries no stage
identifier, contradicting the claim that every exception raised inside a
stage is tagged with the stage that produced it. -/
theorem rollout_provider_runtime_error_untagged :
    run_rollout c9bp c9CompleteRT "SYS" c9I = .error (.runtime "Connection timeout") ∧
      containsSub "stage".data "Connection timeout".data = false := by
  exact ⟨rfl, by decide⟩

/-- C9 amended: the rollout stage wraps any non-`RuntimeError` exception
with the `[rollout stage]` identifier, and re-raises a `RuntimeError`
unchanged (the code's proxy for an exception already tagged by a nested
stage call, which therefore is never wrapped twice) — so a provider-raised
`RuntimeError` reaches the caller without any stage identifier. -/
theorem run_rollout_tagging
    (bp : String → JValue → String → String → Int → Option String → String × String)
    (complete : String → String → Except PyExc LLMResp)
    (system_prompt : String) (i : IdeationResult) :
    (∀ m,
      complete (bp system_prompt i.selected_patterns i.understanding.scope
          i.understanding.depth i.understanding.threshold i.understanding.context).1
        (bp system_prompt i.selected_patterns i.understanding.scope
          i.understanding.depth i.understanding.threshold i.understanding.context).2 =
        .error (.runtime m) →
      run_rollout bp complete system_prompt i = .error (.runtime m)) ∧
    (∀ t m,
      complete (bp system_prompt i.selected_patterns i.understanding.scope
          i.understanding.depth i.understanding.threshold i.understanding.context).1
        (bp system_prompt i.selected_patterns i.understanding.scope
          i.understanding.depth i.understanding.threshold i.understanding.context).2 =
        .error (.other t m) →
      run_rollout bp complete system_prompt i =
        .error (.runtime ("[rollout stage] " ++ m))) := by
  constructor
  · intro m hm
    simp [run_rollout, hm]
  · intro t m hm
    simp [run_rollout, hm]

/-- Witness for the amended C9: a `ValueError` from the provider is
surfaced as `RuntimeError("[rollout stage] boom")`. -/
theorem run_rollout_tagging_witness :
    run_rollout c9bp c9CompleteOther "SYS" c9I =
      .error (.runtime "[rollout stage] boom") :=
  (run_rollout_tagging c9bp c9CompleteOther "SYS" c9I).2 "ValueError" "boom" rfl

end Gremlin
